import Mathlib

/-
Shallow embedding of the control-loop safety kernel of the iot_crockpot
firmware: the crockpot state core (src/firmware/main/crockpot.c), the relay
actuation layer (src/firmware/main/relay.c) and the MAX31855 thermocouple
decoder (src/firmware/main/temperature.c).

Modelling conventions:
- C floats are modelled as rationals; every concrete value the claims touch
  (multiples of 0.25 degC, the 300.0 degF ceiling, 9/5 and 32) is exactly
  representable in IEEE single precision and the float operations involved
  are exact there, so the rational model agrees with the firmware on those
  points.
- The C enum crockpot_state_t is int-backed; it is modelled as Nat with the
  enumerators OFF=0, WARM=1, LOW=2, HIGH=3 (crockpot.h), so that arguments
  outside the four enumerators can be expressed (relay.c has a default
  branch for them).
- Module-static mutable state (s_status, s_relay_states, s_initialized,
  s_last_fault, the control task local error_count) is threaded explicitly
  through a system-state record.
- The execution model is sequential: a FreeRTOS mutex take in a
  single-threaded run is uncontended, so the control-loop body is modelled
  as always running under the lock.  crockpot_get_status and
  crockpot_set_state keep an explicit lock-outcome parameter because their
  two branches behave differently (crockpot.c lines 73-79 and 88-91).
- Hardware side effects (gpio_set_level) are recorded as the last level
  written to the MAIN relay pin.
-/

/-- The enumerator CROCKPOT_OFF = 0 of crockpot_state_t (crockpot.h). -/
def CROCKPOT_OFF : Nat := 0

/-- The enumerator CROCKPOT_WARM = 1 of crockpot_state_t (crockpot.h). -/
def CROCKPOT_WARM : Nat := 1

/-- The enumerator CROCKPOT_LOW = 2 of crockpot_state_t (crockpot.h). -/
def CROCKPOT_LOW : Nat := 2

/-- The enumerator CROCKPOT_HIGH : Nat = 3 of crockpot_state_t (crockpot.h). -/
def CROCKPOT_HIGH : Nat := 3

/-- CROCKPOT_SAFETY_TEMP_F = 300.0f (crockpot.h line 104). -/
def CROCKPOT_SAFETY_TEMP_F : ℚ := 300

/-- The struct crockpot_status_t (crockpot.h lines 32-38). -/
structure crockpot_status_t where
  state : Nat
  temperature_f : ℚ
  uptime_seconds : Nat
  wifi_connected : Bool
  sensor_error : Bool
deriving DecidableEq

/-- The struct temperature_reading_t (temperature.h lines 21-25): it has
exactly the three fields temperature_f, temperature_c, valid — in
particular no fault-kind field. -/
structure temperature_reading_t where
  temperature_f : ℚ
  temperature_c : ℚ
  valid : Bool
deriving DecidableEq

/-- RELAY_CHANNEL_MAIN = 0 (relay.h). -/
def RELAY_CHANNEL_MAIN : Nat := 0

/-- RELAY_CHANNEL_COUNT = 1 (relay.h). -/
def RELAY_CHANNEL_COUNT : Nat := 1

/-- RELAY_ACTIVE_HIGH = 1 (relay.h line 79). -/
def RELAY_ACTIVE_HIGH : Bool := true

/-- The mutable state of the relay module (relay.c): the s_initialized flag,
the single entry s_relay_states[RELAY_CHANNEL_MAIN], and the last level
written to the MAIN relay GPIO pin by gpio_set_level. -/
structure relay_state_t where
  initialized : Bool
  main_commanded : Bool
  main_gpio_level : Nat
deriving DecidableEq

/-- relay_set (relay.c lines 56-80): fails when not initialized or the
channel index is out of range; otherwise translates the logical level
through RELAY_ACTIVE_HIGH, writes the pin, and records the commanded
state. -/
def relay_set (r : relay_state_t) (channel : Nat) (logical_on : Bool) :
    Bool × relay_state_t :=
  if r.initialized = false then (false, r)
  else if RELAY_CHANNEL_COUNT ≤ channel then (false, r)
  else
    let level : Nat :=
      if RELAY_ACTIVE_HIGH then (if logical_on then 1 else 0)
      else (if logical_on then 0 else 1)
    (true, { r with main_commanded := logical_on, main_gpio_level := level })

/-- relay_get (relay.c lines 82-88): false for an out-of-range channel,
otherwise the last commanded state. -/
def relay_get (r : relay_state_t) (channel : Nat) : Bool :=
  if RELAY_CHANNEL_COUNT ≤ channel then false else r.main_commanded

/-- relay_all_off (relay.c lines 90-99): drives every channel pin to the
inactive level and clears every commanded state, without checking
s_initialized. -/
def relay_all_off (r : relay_state_t) : relay_state_t :=
  { r with main_commanded := false,
           main_gpio_level := if RELAY_ACTIVE_HIGH then 0 else 1 }

/-- relay_apply_state (relay.c lines 101-121): OFF turns MAIN off,
WARM/LOW/HIGH turn MAIN on, and any other value runs relay_all_off and
reports failure. -/
def relay_apply_state (r : relay_state_t) (state : Nat) : Bool × relay_state_t :=
  match state with
  | 0 => relay_set r RELAY_CHANNEL_MAIN false
  | 1 => relay_set r RELAY_CHANNEL_MAIN true
  | 2 => relay_set r RELAY_CHANNEL_MAIN true
  | 3 => relay_set r RELAY_CHANNEL_MAIN true
  | _ => (false, relay_all_off r)

/-- The mutable state shared by the crockpot core and its collaborators:
the snapshot s_status (crockpot.c lines 25-31), the relay module state, and
the persistent static error_count of the control task (crockpot.c line 180). -/
structure CrockpotSys where
  s_status : crockpot_status_t
  s_relay : relay_state_t
  error_count : Nat
deriving DecidableEq

/-- crockpot_get_status (crockpot.c lines 69-82): when the bounded mutex
take succeeds the snapshot is copied under the lock; on timeout the same
snapshot variable is read anyway ("return last known state on timeout").
Neither branch reports failure. -/
def crockpot_get_status (lock_ok : Bool) (sys : CrockpotSys) : crockpot_status_t :=
  if lock_ok then sys.s_status else sys.s_status

/-- crockpot_set_state (crockpot.c lines 84-105): fail if the bounded mutex
take fails; otherwise apply the state to the relay, and only on actuation
success write the new state into the snapshot. -/
def crockpot_set_state (lock_ok : Bool) (sys : CrockpotSys) (state : Nat) :
    Bool × CrockpotSys :=
  if lock_ok = false then (false, sys)
  else
    let res := relay_apply_state sys.s_relay state
    if res.1 = false then (false, { sys with s_relay := res.2 })
    else (true, { sys with s_relay := res.2,
                           s_status := { sys.s_status with state := state } })

/-- String constant for crockpot_state_to_string. -/
def STR_OFF_UC : String := "OFF"

/-- String constant for crockpot_state_to_string. -/
def STR_WARM_UC : String := "WARM"

/-- String constant for crockpot_state_to_string. -/
def STR_LOW_UC : String := "LOW"

/-- String constant for crockpot_state_to_string. -/
def STR_HIGH_UC : String := "HIGH"

/-- String constant for crockpot_state_to_string. -/
def STR_UNKNOWN_UC : String := "UNKNOWN"

/-- String constant for crockpot_state_from_string. -/
def STR_OFF_LC : String := "off"

/-- String constant for crockpot_state_from_string. -/
def STR_WARM_LC : String := "warm"

/-- String constant for crockpot_state_from_string. -/
def STR_LOW_LC : String := "low"

/-- String constant for crockpot_state_from_string. -/
def STR_HIGH_LC : String := "high"

/-- crockpot_state_to_string (crockpot.c lines 107-116). -/
def crockpot_state_to_string (state : Nat) : String :=
  match state with
  | 0 => STR_OFF_UC
  | 1 => STR_WARM_UC
  | 2 => STR_LOW_UC
  | 3 => STR_HIGH_UC
  | _ => STR_UNKNOWN_UC

/-- tolower on one ASCII character, as used byte-wise by strcasecmp. -/
def ascii_tolower (c : Char) : Char :=
  if 65 ≤ c.toNat ∧ c.toNat ≤ 90 then Char.ofNat (c.toNat + 32) else c

/-- Lowercasing of an ASCII string, character by character. -/
def ascii_str_tolower (s : String) : String :=
  String.mk (s.data.map ascii_tolower)

/-- strcasecmp(a, b) == 0 for ASCII strings: equality after lowercasing
both sides. -/
def strcasecmp_eq (a b : String) : Bool :=
  ascii_str_tolower a == ascii_str_tolower b

/-- crockpot_state_from_string (crockpot.c lines 118-142): the prior
contents of the out cell are passed in, and returned untouched when no
literal matches (the C function returns false without writing through
out). -/
def crockpot_state_from_string (str : String) (out : Nat) : Bool × Nat :=
  if strcasecmp_eq str STR_OFF_LC then (true, CROCKPOT_OFF)
  else if strcasecmp_eq str STR_WARM_LC then (true, CROCKPOT_WARM)
  else if strcasecmp_eq str STR_LOW_LC then (true, CROCKPOT_LOW)
  else if strcasecmp_eq str STR_HIGH_LC then (true, CROCKPOT_HIGH)
  else (false, out)

/-- Sign extension of a 14-bit field, as performed by temperature.c lines
133-137 on an int16_t (tc_raw |= 0xC000 when bit 13 is set). -/
def sign_extend_14 (v : Nat) : Int :=
  if v < 0x2000 then (v : Int) else (v : Int) - 0x4000

/-- temperature_c_to_f (temperature.c lines 160-163). -/
def temperature_c_to_f (celsius : ℚ) : ℚ :=
  celsius * 9 / 5 + 32

/-- temperature_f_to_c (temperature.c lines 165-168). -/
def temperature_f_to_c (fahrenheit : ℚ) : ℚ :=
  (fahrenheit - 32) * 5 / 9

/-- temperature_read (temperature.c lines 78-158), decoding one 32-bit raw
sample.  Inputs beyond the sample: the s_initialized flag, whether the SPI
transaction succeeded, and the prior value of the static s_last_fault.
Output: the returned temperature_reading_t together with the new value of
s_last_fault.  When bit 16 of the raw word is set, the low three bits are
stored into s_last_fault and the zero-initialised invalid reading is
returned; the returned struct itself carries no fault information.  The
cold-junction field (bits 15-4) is decoded by the C code but does not flow
into the returned reading, so it is omitted here. -/
def temperature_read (s_initialized : Bool) (spi_ok : Bool) (raw : Nat)
    (s_last_fault : Nat) : temperature_reading_t × Nat :=
  let reading : temperature_reading_t :=
    { temperature_f := 0, temperature_c := 0, valid := false }
  if s_initialized = false then (reading, s_last_fault)
  else if spi_ok = false then (reading, s_last_fault)
  else if raw &&& 0x00010000 ≠ 0 then
    (reading, raw &&& 0x07)
  else
    let tc_raw : Int := sign_extend_14 ((raw >>> 18) &&& 0x3FFF)
    let temp_c : ℚ := (tc_raw : ℚ) * (1 / 4)
    ({ temperature_c := temp_c,
       temperature_f := temperature_c_to_f temp_c,
       valid := true }, 0)

/-- The per-cycle inputs of the control loop (crockpot.c lines 150-168):
the decoded reading, the wifi_is_connected() result, and the uptime value
computed from the monotonic timer. -/
structure cycle_inputs_t where
  reading : temperature_reading_t
  wifi_connected : Bool
  uptime_seconds : Nat
deriving DecidableEq

/-- One iteration of the while loop of crockpot_control_task (crockpot.c
lines 150-195), in the sequential model where the bounded mutex take is
uncontended and succeeds: update temperature/sensor_error from the reading,
update uptime and wifi, then run the over-temperature interlock (lines
170-176) and the persistent-sensor-fault interlock (lines 178-188). -/
def crockpot_control_cycle (inp : cycle_inputs_t) (sys : CrockpotSys) : CrockpotSys :=
  let st0 := sys.s_status
  let st1 :=
    if inp.reading.valid then
      { st0 with temperature_f := inp.reading.temperature_f, sensor_error := false }
    else
      { st0 with sensor_error := true }
  let st2 := { st1 with uptime_seconds := inp.uptime_seconds,
                        wifi_connected := inp.wifi_connected }
  let afterTemp :=
    if inp.reading.valid ∧ CROCKPOT_SAFETY_TEMP_F < inp.reading.temperature_f then
      ({ st2 with state := CROCKPOT_OFF }, relay_all_off sys.s_relay)
    else
      (st2, sys.s_relay)
  let st3 := afterTemp.1
  let rel3 := afterTemp.2
  if st3.sensor_error = true ∧ st3.state ≠ CROCKPOT_OFF then
    let ec := sys.error_count + 1
    if 10 < ec then
      { s_status := { st3 with state := CROCKPOT_OFF },
        s_relay := relay_all_off rel3,
        error_count := 0 }
    else
      { s_status := st3, s_relay := rel3, error_count := ec }
  else
    { s_status := st3, s_relay := rel3, error_count := sys.error_count }

/-- A run of consecutive control-loop cycles, one input record per cycle. -/
def crockpot_run_cycles (ins : List cycle_inputs_t) (sys : CrockpotSys) : CrockpotSys :=
  match ins with
  | [] => sys
  | i :: rest => crockpot_run_cycles rest (crockpot_control_cycle i sys)

/-- A concrete system state with an initialized relay, used by witnesses. -/
def test_sys : CrockpotSys :=
  { s_status := { state := 0, temperature_f := 0, uptime_seconds := 0,
                  wifi_connected := false, sensor_error := false },
    s_relay := { initialized := true, main_commanded := false, main_gpio_level := 0 },
    error_count := 0 }

/-- A concrete system state whose relay module is uninitialized. -/
def test_sys_uninit : CrockpotSys :=
  { s_status := { state := 2, temperature_f := 120, uptime_seconds := 9,
                  wifi_connected := true, sensor_error := false },
    s_relay := { initialized := false, main_commanded := false, main_gpio_level := 0 },
    error_count := 0 }

/-- Claim C9: crockpot_get_status never fails: whatever the outcome of the
bounded 100 ms lock acquisition, it returns a copy of the snapshot (on
timeout the last known snapshot is read without the lock) and never reports
failure to the caller. -/
theorem crockpot_get_status_never_fails (lock_ok : Bool) (sys : CrockpotSys) :
    crockpot_get_status lock_ok sys = sys.s_status := by
  cases lock_ok <;> rfl

/-- Claim C1: for every state s in OFF/WARM/LOW/HIGH, if
crockpot_set_state(s) returns success then the status snapshot records
state s and the last-commanded relay output for the MAIN channel equals
(s is not OFF). -/
theorem crockpot_set_state_success_sets_state (lock_ok : Bool) (sys : CrockpotSys)
    (s : Nat) (hs : s < 4)
    (hok : (crockpot_set_state lock_ok sys s).1 = true) :
    (crockpot_set_state lock_ok sys s).2.s_status.state = s ∧
    (relay_get (crockpot_set_state lock_ok sys s).2.s_relay RELAY_CHANNEL_MAIN = true ↔
      s ≠ CROCKPOT_OFF) := by
  cases lock_ok <;>
    cases hinit : sys.s_relay.initialized <;>
      interval_cases s <;>
        simp_all [crockpot_set_state, relay_apply_state, relay_set, relay_get,
          RELAY_CHANNEL_MAIN, RELAY_CHANNEL_COUNT, RELAY_ACTIVE_HIGH, CROCKPOT_OFF]

theorem crockpot_set_state_success_sets_state_witness :
    (crockpot_set_state true test_sys 3).2.s_status.state = 3 ∧
    (relay_get (crockpot_set_state true test_sys 3).2.s_relay RELAY_CHANNEL_MAIN = true ↔
      3 ≠ CROCKPOT_OFF) :=
  crockpot_set_state_success_sets_state true test_sys 3 (by decide) (by decide)

/-- Claim C5: if the relay actuation step of crockpot_set_state fails,
then crockpot_set_state returns failure and the status snapshot is left
unchanged. -/
theorem crockpot_set_state_failure_leaves_snapshot (lock_ok : Bool) (sys : CrockpotSys)
    (s : Nat) (hfail : (relay_apply_state sys.s_relay s).1 = false) :
    (crockpot_set_state lock_ok sys s).1 = false ∧
    (crockpot_set_state lock_ok sys s).2.s_status = sys.s_status := by
  cases lock_ok <;> simp [crockpot_set_state, hfail]

theorem crockpot_set_state_failure_leaves_snapshot_witness :
    (crockpot_set_state true test_sys_uninit 1).1 = false ∧
    (crockpot_set_state true test_sys_uninit 1).2.s_status = test_sys_uninit.s_status :=
  crockpot_set_state_failure_leaves_snapshot true test_sys_uninit 1 (by decide)

/-- Claim C10: for every argument outside the four enumerated operating
states, relay_apply_state drives every relay channel OFF through the
all-off primitive (commanded state false, pin at the inactive level) and
returns failure. -/
theorem relay_apply_state_invalid_all_off (r : relay_state_t) (state : Nat)
    (h : 4 ≤ state) :
    (relay_apply_state r state).1 = false ∧
    (relay_apply_state r state).2.main_commanded = false ∧
    (relay_apply_state r state).2.main_gpio_level = 0 := by
  obtain ⟨n, rfl⟩ : ∃ n, state = n + 4 := ⟨state - 4, by omega⟩
  exact ⟨rfl, rfl, rfl⟩

theorem relay_apply_state_invalid_all_off_witness :
    (relay_apply_state test_sys.s_relay 4).1 = false ∧
    (relay_apply_state test_sys.s_relay 4).2.main_commanded = false ∧
    (relay_apply_state test_sys.s_relay 4).2.main_gpio_level = 0 :=
  relay_apply_state_invalid_all_off test_sys.s_relay 4 (by decide)

/-- Claim C2: in any control-loop cycle whose decoded reading is valid
with a Fahrenheit value above 300.0, the post-cycle snapshot state is OFF
and the relay output is OFF, regardless of the pre-cycle state. -/
theorem control_cycle_overtemp_forces_off (inp : cycle_inputs_t) (sys : CrockpotSys)
    (hv : inp.reading.valid = true)
    (ht : CROCKPOT_SAFETY_TEMP_F < inp.reading.temperature_f) :
    (crockpot_control_cycle inp sys).s_status.state = CROCKPOT_OFF ∧
    (crockpot_control_cycle inp sys).s_relay.main_commanded = false ∧
    (crockpot_control_cycle inp sys).s_relay.main_gpio_level = 0 := by
  simp [crockpot_control_cycle, relay_all_off, RELAY_ACTIVE_HIGH, CROCKPOT_OFF, hv, ht]

/-- Concrete over-temperature cycle input for witnesses. -/
def inp_overtemp : cycle_inputs_t :=
  { reading := { temperature_f := 400, temperature_c := 204, valid := true },
    wifi_connected := true, uptime_seconds := 5 }

theorem control_cycle_overtemp_forces_off_witness :
    (crockpot_control_cycle inp_overtemp test_sys).s_status.state = CROCKPOT_OFF ∧
    (crockpot_control_cycle inp_overtemp test_sys).s_relay.main_commanded = false ∧
    (crockpot_control_cycle inp_overtemp test_sys).s_relay.main_gpio_level = 0 :=
  control_cycle_overtemp_forces_off inp_overtemp test_sys rfl (by norm_num [inp_overtemp, CROCKPOT_SAFETY_TEMP_F])

theorem cycle_invalid_off (inp : cycle_inputs_t) (sys : CrockpotSys)
    (hv : inp.reading.valid = false) (hs : sys.s_status.state = CROCKPOT_OFF) :
    (crockpot_control_cycle inp sys).s_status.state = CROCKPOT_OFF ∧
    (crockpot_control_cycle inp sys).s_relay = sys.s_relay ∧
    (crockpot_control_cycle inp sys).error_count = sys.error_count := by
  simp [crockpot_control_cycle, hv, hs, CROCKPOT_OFF]

theorem cycle_invalid_trip (inp : cycle_inputs_t) (sys : CrockpotSys)
    (hv : inp.reading.valid = false) (hs : sys.s_status.state ≠ CROCKPOT_OFF)
    (hc : 10 ≤ sys.error_count) :
    (crockpot_control_cycle inp sys).s_status.state = CROCKPOT_OFF ∧
    (crockpot_control_cycle inp sys).s_relay = relay_all_off sys.s_relay ∧
    (crockpot_control_cycle inp sys).error_count = 0 := by
  have hs0 : ¬ sys.s_status.state = 0 := by simpa [CROCKPOT_OFF] using hs
  have hc0 : 10 < sys.error_count + 1 := by omega
  simp [crockpot_control_cycle, hv, hs0, hc0, CROCKPOT_OFF]

theorem cycle_invalid_no_trip (inp : cycle_inputs_t) (sys : CrockpotSys)
    (hv : inp.reading.valid = false) (hs : sys.s_status.state ≠ CROCKPOT_OFF)
    (hc : sys.error_count < 10) :
    (crockpot_control_cycle inp sys).s_status.state = sys.s_status.state ∧
    (crockpot_control_cycle inp sys).s_relay = sys.s_relay ∧
    (crockpot_control_cycle inp sys).error_count = sys.error_count + 1 := by
  have hs0 : ¬ sys.s_status.state = 0 := by simpa [CROCKPOT_OFF] using hs
  have hc0 : ¬ 10 < sys.error_count + 1 := by omega
  simp [crockpot_control_cycle, hv, hs0, hc0, CROCKPOT_OFF]

theorem run_invalid_off_stable (ins : List cycle_inputs_t) :
    ∀ sys : CrockpotSys, (∀ i ∈ ins, i.reading.valid = false) →
    sys.s_status.state = CROCKPOT_OFF →
    (crockpot_run_cycles ins sys).s_status.state = CROCKPOT_OFF ∧
    (crockpot_run_cycles ins sys).s_relay = sys.s_relay := by
  induction ins with
  | nil => intro sys _ hs; exact ⟨hs, rfl⟩
  | cons i rest ih =>
    intro sys hall hs
    have hi := cycle_invalid_off i sys (hall i (List.mem_cons_self i rest)) hs
    have hr := ih (crockpot_control_cycle i sys)
      (fun j hj => hall j (List.mem_cons_of_mem i hj)) hi.1
    refine ⟨hr.1, ?_⟩
    rw [crockpot_run_cycles, hr.2, hi.2.1]

theorem run_invalid_forces_off (ins : List cycle_inputs_t) :
    ∀ sys : CrockpotSys, (∀ i ∈ ins, i.reading.valid = false) →
    sys.s_status.state ≠ CROCKPOT_OFF →
    1 ≤ ins.length → 11 ≤ ins.length + sys.error_count →
    (crockpot_run_cycles ins sys).s_status.state = CROCKPOT_OFF ∧
    (crockpot_run_cycles ins sys).s_relay.main_commanded = false ∧
    (crockpot_run_cycles ins sys).s_relay.main_gpio_level = 0 := by
  induction ins with
  | nil => intro sys _ _ hlen _; simp at hlen
  | cons i rest ih =>
    intro sys hall hs _ hbound
    have hv := hall i (List.mem_cons_self i rest)
    have hall_rest : ∀ j ∈ rest, j.reading.valid = false :=
      fun j hj => hall j (List.mem_cons_of_mem i hj)
    rw [crockpot_run_cycles]
    by_cases hc : 10 ≤ sys.error_count
    · have ht := cycle_invalid_trip i sys hv hs hc
      have hstable := run_invalid_off_stable rest (crockpot_control_cycle i sys) hall_rest ht.1
      refine ⟨hstable.1, ?_, ?_⟩
      · rw [hstable.2, ht.2.1]; rfl
      · rw [hstable.2, ht.2.1]; rfl
    · push_neg at hc
      have hn := cycle_invalid_no_trip i sys hv hs hc
      have := ih (crockpot_control_cycle i sys) hall_rest
        (by rw [hn.1]; exact hs)
        (by simp at hbound ⊢; omega)
        (by simp at hbound ⊢; omega)
      exact this

/-- Claim C3: if the decode yields an invalid reading in 11 consecutive
control-loop cycles and the snapshot state is non-OFF at the start of the
streak, then by the end of the 11th cycle the loop has forced the snapshot
state to OFF and the relay has been driven all-off. -/
theorem control_loop_fault_streak_forces_off (ins : List cycle_inputs_t)
    (sys : CrockpotSys)
    (hlen : ins.length = 11)
    (hall : ∀ i ∈ ins, i.reading.valid = false)
    (hs : sys.s_status.state ≠ CROCKPOT_OFF) :
    (crockpot_run_cycles ins sys).s_status.state = CROCKPOT_OFF ∧
    (crockpot_run_cycles ins sys).s_relay.main_commanded = false ∧
    (crockpot_run_cycles ins sys).s_relay.main_gpio_level = 0 :=
  run_invalid_forces_off ins sys hall hs (by omega) (by omega)

/-- Concrete invalid-reading cycle input for witnesses. -/
def inp_invalid : cycle_inputs_t :=
  { reading := { temperature_f := 0, temperature_c := 0, valid := false },
    wifi_connected := false, uptime_seconds := 3 }

/-- Concrete heating system state for witnesses. -/
def test_sys_warm : CrockpotSys :=
  { s_status := { state := 1, temperature_f := 150, uptime_seconds := 60,
                  wifi_connected := true, sensor_error := false },
    s_relay := { initialized := true, main_commanded := true, main_gpio_level := 1 },
    error_count := 0 }

theorem control_loop_fault_streak_forces_off_witness :
    (crockpot_run_cycles (List.replicate 11 inp_invalid) test_sys_warm).s_status.state = CROCKPOT_OFF ∧
    (crockpot_run_cycles (List.replicate 11 inp_invalid) test_sys_warm).s_relay.main_commanded = false ∧
    (crockpot_run_cycles (List.replicate 11 inp_invalid) test_sys_warm).s_relay.main_gpio_level = 0 :=
  control_loop_fault_streak_forces_off (List.replicate 11 inp_invalid) test_sys_warm
    (by simp)
    (by intro i hi; rw [List.eq_of_mem_replicate hi]; rfl)
    (by decide)

/-- Concrete valid-reading cycle input (150 degF) for the C4 counterexample. -/
def inp_valid150 : cycle_inputs_t :=
  { reading := { temperature_f := 150, temperature_c := 65, valid := true },
    wifi_connected := true, uptime_seconds := 42 }

/-- Concrete system state mid-streak: WARM with error_count = 5, reachable
after five consecutive invalid-reading cycles while heating. -/
def test_sys_streak5 : CrockpotSys :=
  { s_status := { state := 1, temperature_f := 150, uptime_seconds := 41,
                  wifi_connected := true, sensor_error := true },
    s_relay := { initialized := true, main_commanded := true, main_gpio_level := 1 },
    error_count := 5 }

/-- Claim C4 counterexample: a cycle with a valid reading, entered with a
fault streak of 5, leaves the fault-streak counter at 5 rather than
resetting it to zero — the code never resets the counter outside the
interlock trip. -/
theorem fault_counter_not_reset_counterexample :
    inp_valid150.reading.valid = true ∧
    ¬ (crockpot_control_cycle inp_valid150 test_sys_streak5).error_count = 0 := by
  constructor
  · rfl
  · have ht : ¬ (CROCKPOT_SAFETY_TEMP_F < (150 : ℚ)) := by
      norm_num [CROCKPOT_SAFETY_TEMP_F]
    simp [crockpot_control_cycle, inp_valid150, test_sys_streak5, ht]

/-- Claim C4 amended: after every control-loop cycle in which the decoded
reading is valid, and after every cycle in which the snapshot state is
already OFF at the fault check, the fault-streak counter is left unchanged
(it is reset to zero only when the interlock trips). -/
theorem control_cycle_fault_counter_unchanged (inp : cycle_inputs_t) (sys : CrockpotSys)
    (h : inp.reading.valid = true ∨ sys.s_status.state = CROCKPOT_OFF) :
    (crockpot_control_cycle inp sys).error_count = sys.error_count := by
  rcases h with hv | hs
  · by_cases ht : CROCKPOT_SAFETY_TEMP_F < inp.reading.temperature_f <;>
      simp [crockpot_control_cycle, hv, ht]
  · cases hv : inp.reading.valid <;>
      by_cases ht : CROCKPOT_SAFETY_TEMP_F < inp.reading.temperature_f <;>
        simp [crockpot_control_cycle, hv, ht, hs, CROCKPOT_OFF]

theorem control_cycle_fault_counter_unchanged_witness :
    (crockpot_control_cycle inp_valid150 test_sys_streak5).error_count =
      test_sys_streak5.error_count :=
  control_cycle_fault_counter_unchanged inp_valid150 test_sys_streak5 (Or.inl rfl)

/-- Claim C6 counterexample: the readings returned for an open-circuit
fault word (low bits 001) and a short-to-ground fault word (low bits 010)
are identical — temperature_reading_t carries no fault_kind, so the caller
cannot distinguish the fault kinds from the returned reading. -/
theorem temperature_read_no_fault_kind_counterexample :
    (temperature_read true true 0x00010001 0).1 = (temperature_read true true 0x00010002 0).1 ∧
    (temperature_read true true 0x00010001 0).1.valid = false :=
  ⟨rfl, rfl⟩

/-- Claim C6 amended: for every raw 32-bit sample with bit 16 set and low
three bits 001, the decoder returns a reading with valid=false (and zeroed
temperature fields), and records fault code 1 (open circuit, distinct from
the short-to-ground code 2 and short-to-supply code 4) in the
driver-internal static s_last_fault; the returned reading itself carries no
fault kind. -/
theorem temperature_read_open_circuit_internal (raw : Nat) (f : Nat)
    (hbit : raw &&& 0x00010000 ≠ 0) (hlow : raw &&& 0x07 = 1) :
    (temperature_read true true raw f).1 =
      { temperature_f := 0, temperature_c := 0, valid := false } ∧
    (temperature_read true true raw f).2 = 1 := by
  simp [temperature_read, hbit, hlow]

theorem temperature_read_open_circuit_internal_witness :
    (temperature_read true true 0x00010001 0).1 =
      { temperature_f := 0, temperature_c := 0, valid := false } ∧
    (temperature_read true true 0x00010001 0).2 = 1 :=
  temperature_read_open_circuit_internal 0x00010001 0 (by decide) (by decide)

/-- Claim C7: the fault-free raw sample 0x06400000 decodes to
temperature_c = 100.0, temperature_f = 212.0, valid = true; and every
fault-free raw sample whose top 14 bits hold 0x3FFC (minus four in 14-bit
two-complement form) decodes to temperature_c = -1.0. -/
theorem temperature_read_decode_scenarios :
    (∀ f : Nat, temperature_read true true 0x06400000 f =
      ({ temperature_f := 212, temperature_c := 100, valid := true }, 0)) ∧
    (∀ raw f : Nat, raw &&& 0x00010000 = 0 → (raw >>> 18) &&& 0x3FFF = 0x3FFC →
      (temperature_read true true raw f).1.temperature_c = -1) := by
  constructor
  · intro f
    have h1 : (0x06400000 : Nat) &&& 0x00010000 = 0 := by decide
    have h2 : ((0x06400000 : Nat) >>> 18) &&& 0x3FFF = 400 := by decide
    have h3 : (400 : Nat) &&& 16383 = 400 := by decide
    norm_num [temperature_read, h1, h2, h3, sign_extend_14, temperature_c_to_f]
  · intro raw f h1 h2
    norm_num [temperature_read, h1, h2, sign_extend_14, temperature_c_to_f]

theorem temperature_read_decode_scenarios_witness :
    temperature_read true true 0x06400000 9 =
      ({ temperature_f := 212, temperature_c := 100, valid := true }, 0) ∧
    (temperature_read true true 0xFFF00000 3).1.temperature_c = -1 :=
  ⟨temperature_read_decode_scenarios.1 9,
   temperature_read_decode_scenarios.2 0xFFF00000 3 (by decide) (by decide)⟩

/-- Claim C8: parsing the printed name of each of the four states
succeeds and returns that state; parsing is case-insensitive (any two
strings equal after ASCII lowercasing parse identically); and every string
outside the four literals, compared case-insensitively, fails to parse and
leaves the out cell unchanged. -/
theorem crockpot_state_string_roundtrip :
    (∀ s : Nat, s < 4 → ∀ out : Nat,
      crockpot_state_from_string (crockpot_state_to_string s) out = (true, s)) ∧
    (∀ a b : String, ∀ out : Nat, ascii_str_tolower a = ascii_str_tolower b →
      crockpot_state_from_string a out = crockpot_state_from_string b out) ∧
    (∀ str : String, ∀ out : Nat,
      ascii_str_tolower str ∉ [STR_OFF_LC, STR_WARM_LC, STR_LOW_LC, STR_HIGH_LC] →
      crockpot_state_from_string str out = (false, out)) := by
  refine ⟨?_, ?_, ?_⟩
  · have e00 : strcasecmp_eq STR_OFF_UC STR_OFF_LC = true := by decide
    have e10 : strcasecmp_eq STR_WARM_UC STR_OFF_LC = false := by decide
    have e11 : strcasecmp_eq STR_WARM_UC STR_WARM_LC = true := by decide
    have e20 : strcasecmp_eq STR_LOW_UC STR_OFF_LC = false := by decide
    have e21 : strcasecmp_eq STR_LOW_UC STR_WARM_LC = false := by decide
    have e22 : strcasecmp_eq STR_LOW_UC STR_LOW_LC = true := by decide
    have e30 : strcasecmp_eq STR_HIGH_UC STR_OFF_LC = false := by decide
    have e31 : strcasecmp_eq STR_HIGH_UC STR_WARM_LC = false := by decide
    have e32 : strcasecmp_eq STR_HIGH_UC STR_LOW_LC = false := by decide
    have e33 : strcasecmp_eq STR_HIGH_UC STR_HIGH_LC = true := by decide
    intro s hs out
    interval_cases s <;>
      simp [crockpot_state_to_string, crockpot_state_from_string,
        e00, e10, e11, e20, e21, e22, e30, e31, e32, e33,
        CROCKPOT_OFF, CROCKPOT_WARM, CROCKPOT_LOW, CROCKPOT_HIGH]
  · intro a b out h
    simp only [crockpot_state_from_string, strcasecmp_eq, h]
  · have l1 : ascii_str_tolower STR_OFF_LC = STR_OFF_LC := by decide
    have l2 : ascii_str_tolower STR_WARM_LC = STR_WARM_LC := by decide
    have l3 : ascii_str_tolower STR_LOW_LC = STR_LOW_LC := by decide
    have l4 : ascii_str_tolower STR_HIGH_LC = STR_HIGH_LC := by decide
    intro str out h
    simp only [List.mem_cons, List.mem_singleton, List.not_mem_nil, or_false,
      not_or] at h
    obtain ⟨h1, h2, h3, h4⟩ := h
    have c1 : strcasecmp_eq str STR_OFF_LC = false := by
      simp [strcasecmp_eq, l1, h1]
    have c2 : strcasecmp_eq str STR_WARM_LC = false := by
      simp [strcasecmp_eq, l2, h2]
    have c3 : strcasecmp_eq str STR_LOW_LC = false := by
      simp [strcasecmp_eq, l3, h3]
    have c4 : strcasecmp_eq str STR_HIGH_LC = false := by
      simp [strcasecmp_eq, l4, h4]
    simp [crockpot_state_from_string, c1, c2, c3, c4]

theorem crockpot_state_string_roundtrip_witness :
    crockpot_state_from_string (crockpot_state_to_string 3) 7 = (true, 3) ∧
    crockpot_state_from_string STR_WARM_UC 0 = crockpot_state_from_string STR_WARM_LC 0 ∧
    crockpot_state_from_string STR_UNKNOWN_UC 2 = (false, 2) :=
  ⟨crockpot_state_string_roundtrip.1 3 (by decide) 7,
   crockpot_state_string_roundtrip.2.1 STR_WARM_UC STR_WARM_LC 0 (by decide),
   crockpot_state_string_roundtrip.2.2 STR_UNKNOWN_UC 2 (by decide)⟩
